import Mathlib

/-!
Verification of the DBSBM master service manager
(`master_service_manager.py`): a shallow embedding of the service
lifecycle state machine (`start_service`, `stop_service`,
`check_service_health`), the monitor loop body (`monitor_services`),
the monthly-restart scheduler (`check_monthly_restart`) and the
persisted status record (`update_status`), together with theorems
about restart backoff, idempotence, invariants and scheduling.
-/

namespace BotServer

/-- Service status values as stored in `service["status"]`:
the source writes the strings "stopped", "running", "died", "error". -/
inductive Status where
  | stopped
  | running
  | died
  | error
deriving DecidableEq, Repr

/-- One entry of `self.services`: the mutable per-service record.
`process` holds the pid of the `subprocess.Popen` handle when one is
stored (`None` otherwise); `pid` mirrors `service["pid"]`.
Timestamps are abstracted as natural numbers. -/
structure Service where
  process : Option Nat
  pid : Option Nat
  status : Status
  restart_count : Nat
  consecutive_failures : Nat
  last_restart : Option Nat
  last_health_check : Option Nat
  script : String
  working_dir : String
deriving DecidableEq, Repr

/-- The record a service starts with in `self.services` at construction:
no process, no pid, status "stopped", all counters zero. -/
def initService (script working_dir : String) : Service :=
  { process := none
    pid := none
    status := .stopped
    restart_count := 0
    consecutive_failures := 0
    last_restart := none
    last_health_check := none
    script := script
    working_dir := working_dir }

/-- Environment answers consumed by one `start_service` call:
`pidAlive` is the result of `is_process_running(service["pid"])`,
`scriptExists` whether the launch target path exists, `pollResult`
the value of `process.poll()` after the 5 s grace sleep (`none` means
the child is still running, `some c` means it exited with code `c`),
`newPid` the pid the OS assigned to the spawned child and `now` the
current time. -/
structure StartOracle where
  pidAlive : Bool
  scriptExists : Bool
  pollResult : Option Int
  newPid : Nat
  now : Nat
deriving Repr

/-- `start_service`: if `service["pid"]` is set and that pid is running,
report success with status "running" and reset the failure counter;
otherwise if the script path does not exist, set status "error",
bump `consecutive_failures` and fail; otherwise spawn, sleep the 5 s
grace window and poll: still running means store the handle and pid,
set "running", bump `restart_count`, record `last_restart` and reset
failures; exited means set "error", bump `consecutive_failures`,
fail (the dead local handle is not stored). -/
def start_service (s : Service) (o : StartOracle) : Service × Bool :=
  if s.pid.isSome && o.pidAlive then
    ({ s with status := .running, consecutive_failures := 0 }, true)
  else if !o.scriptExists then
    ({ s with status := .error,
              consecutive_failures := s.consecutive_failures + 1 }, false)
  else if o.pollResult = none then
    ({ s with process := some o.newPid,
              pid := some o.newPid,
              status := .running,
              restart_count := s.restart_count + 1,
              last_restart := some o.now,
              consecutive_failures := 0 }, true)
  else
    ({ s with status := .error,
              consecutive_failures := s.consecutive_failures + 1 }, false)

/-- `stop_service`: if a handle is stored and `poll()` is `None`
(`procAlive`), terminate (gracefully, then forcefully on timeout),
null the handle and pid and set "stopped"; otherwise the service is
not running: set "stopped" and null the pid, but leave the stored
handle untouched. Both paths return `True`. -/
def stop_service (s : Service) (procAlive : Bool) : Service × Bool :=
  if s.process.isSome && procAlive then
    ({ s with process := none, pid := none, status := .stopped }, true)
  else
    ({ s with status := .stopped, pid := none }, true)

/-- `check_service_health`: first record `last_health_check := now`;
then if no pid is stored, return unhealthy; if the pid is not running,
set status "died", null pid and handle and bump `consecutive_failures`;
otherwise set "running" and reset the failure counter. -/
def check_service_health (s : Service) (pidAlive : Bool) (now : Nat) :
    Service × Bool :=
  let s1 := { s with last_health_check := some now }
  if s1.pid = none then (s1, false)
  else if !pidAlive then
    ({ s1 with status := .died,
               pid := none,
               process := none,
               consecutive_failures := s1.consecutive_failures + 1 }, false)
  else
    ({ s1 with status := .running, consecutive_failures := 0 }, true)

/-- The backoff wait of `monitor_services` as a pure function of the
consecutive-failure count: `2 ** n` seconds when `n <= 3`, else the
fixed 60 s wait for severely failing services. -/
def backoff_wait (n : Nat) : Nat :=
  if n ≤ 3 then 2 ^ n else 60

/-- One iteration of the `monitor_services` loop body for a single
service: run the health check; when it reports unhealthy and the
status is "died", either sleep `2 ** consecutive_failures` seconds and
call `start_service` (when the counter is at most 3) or sleep 60 s
without restarting. Returns the new record and the sleep performed
before/instead of the restart attempt (`none` when no backoff sleep
happened). -/
def monitor_tick (s : Service) (pidAlive : Bool) (now : Nat)
    (o : StartOracle) : Service × Option Nat :=
  let r := check_service_health s pidAlive now
  if r.2 then (r.1, none)
  else if r.1.status = .died then
    if r.1.consecutive_failures ≤ 3 then
      ((start_service r.1 o).1, some (2 ^ r.1.consecutive_failures))
    else (r.1, some 60)
  else (r.1, none)

/-- The per-service object written into `status_data["services"]` by
`update_status`: each field is copied verbatim from the record. -/
structure PersistedService where
  status : Status
  pid : Option Nat
  restart_count : Nat
  last_restart : Option Nat
  last_health_check : Option Nat
  consecutive_failures : Nat
deriving DecidableEq, Repr

/-- The pure content of `update_status` for one service. -/
def update_status_entry (s : Service) : PersistedService :=
  { status := s.status
    pid := s.pid
    restart_count := s.restart_count
    last_restart := s.last_restart
    last_health_check := s.last_health_check
    consecutive_failures := s.consecutive_failures }

/-- A calendar date as used by `check_monthly_restart`: year, month,
day of month, plus the Python `weekday()` of the first day of the
month (0 is Monday, ..., 6 is Sunday), which determines where the
first Monday falls. -/
structure Date where
  year : Nat
  month : Nat
  day : Nat
  firstWeekday : Nat
deriving DecidableEq, Repr

/-- The day-of-month of the first Monday:
`first_day + timedelta(days=(7 - first_day.weekday()) % 7)`. -/
def firstMondayDay (d : Date) : Nat :=
  1 + (7 - d.firstWeekday) % 7

/-- `today.date() == first_monday.date()` (same month and year by
construction, so only the day of month is compared). -/
def isFirstMonday (d : Date) : Bool :=
  d.day == firstMondayDay d

/-- `check_monthly_restart`: fire when today is the first Monday of the
month and `last_monthly_restart` is `None` or refers to a different
month or year; on firing, record `last_monthly_restart := today`
(before the restart cycle). Returns the new stored date and whether
the restart cycle was triggered. -/
def check_monthly_restart (today : Date) (last : Option Date) :
    Option Date × Bool :=
  if isFirstMonday today &&
      (match last with
       | none => true
       | some l => (l.month != today.month) || (l.year != today.year)) then
    (some today, true)
  else
    (last, false)

/-- Repeated invocations of `check_monthly_restart` threading the
stored `last_monthly_restart`; also counts how many invocations
triggered the restart cycle. -/
def runChecks : Option Date → List Date → Option Date × Nat
  | last, [] => (last, 0)
  | last, d :: ds =>
    let r := check_monthly_restart d last
    let rest := runChecks r.1 ds
    (rest.1, (if r.2 then 1 else 0) + rest.2)

/-- Whether a stored `last_monthly_restart` refers to month `m` of
year `y`. -/
def refersToMonth (m y : Nat) : Option Date → Bool
  | none => false
  | some l => l.month == m && l.year == y

/-- Process-wide supervisor state: the service map and the stored
`last_monthly_restart` date. -/
structure SupState where
  services : List (String × Service)
  last_monthly_restart : Option Date
deriving Repr

/-- One scheduler invocation at the supervisor level, with the
restart-all cycle abstracted as an arbitrary transformation `cycle`
of the service map (covering in particular cycles that fail or stop
partway): the source assigns `self.last_monthly_restart = today`
strictly before calling `restart_all_services`, so the stored date is
updated whatever `cycle` does. -/
def monthly_tick (today : Date) (st : SupState)
    (cycle : List (String × Service) → List (String × Service)) :
    SupState :=
  let r := check_monthly_restart today st.last_monthly_restart
  if r.2 then
    { services := cycle st.services, last_monthly_restart := r.1 }
  else
    { st with last_monthly_restart := r.1 }

/-- Fixed oracle used in the concrete crash scenario: the monitored
pid is found dead, the script exists, and the respawned child survives
the grace window with pid `p`. -/
def crashOracle (p : Nat) : StartOracle :=
  { pidAlive := false
    scriptExists := true
    pollResult := none
    newPid := p
    now := 0 }

/-- The discord-bot service right after its initial successful start:
obtained by running `start_service` on the freshly constructed record. -/
def startedService : Service :=
  (start_service (initService "main.py" "DBSBM/bot") (crashOracle 100)).1

/-- One round of the crash scenario: the child has died (the health
check finds the pid not running), the monitor sleeps its backoff and
restarts, and the restarted child survives its grace window. -/
def crashRound (s : Service) (k : Nat) : Service × Option Nat :=
  monitor_tick s false k (crashOracle (100 + k))

/-- Iterate `crashRound`, collecting the backoff sleep of each round:
the delays the monitor waits before each restart attempt when the
service keeps crashing between health checks. -/
def crashDelays : Service → Nat → List (Option Nat)
  | _, 0 => []
  | s, n + 1 =>
    let r := crashRound s (n + 1)
    r.2 :: crashDelays r.1 n

/-- C2: the backoff wait of the monitor loop, as a pure function of
the consecutive-failure count `n`, equals `min (2 ^ n) 60` for
`n ≤ 3` and the fixed 60 s ceiling beyond; `backoff_wait 0 = 1`,
`backoff_wait 3 = 8`, `backoff_wait 4 = 60`; and the function is
non-decreasing up to the threshold 3. -/
theorem backoff_wait_spec (n : Nat) :
    (n ≤ 3 → backoff_wait n = min (2 ^ n) 60) ∧
    (3 < n → backoff_wait n = 60) ∧
    backoff_wait 0 = 1 ∧ backoff_wait 3 = 8 ∧ backoff_wait 4 = 60 ∧
    (∀ m, m ≤ n → n ≤ 3 → backoff_wait m ≤ backoff_wait n) := by
  refine ⟨fun h => ?_, fun h => ?_, rfl, rfl, rfl, fun m hm h3 => ?_⟩
  · have h60 : 2 ^ n ≤ 60 :=
      le_trans (Nat.pow_le_pow_right (by norm_num) h) (by norm_num)
    simp [backoff_wait, h, Nat.min_eq_left h60]
  · simp [backoff_wait, Nat.not_le.mpr h]
  · have hm3 : m ≤ 3 := le_trans hm h3
    simp only [backoff_wait, if_pos h3, if_pos hm3]
    exact Nat.pow_le_pow_right (by norm_num) hm

/-- Witness for `backoff_wait_spec` at the threshold boundary. -/
theorem backoff_wait_spec_witness :
    3 < 4 ∧ backoff_wait 4 = 60 :=
  ⟨by decide, (backoff_wait_spec 4).2.1 (by decide)⟩

/-- C1 counterexample: in the crash scenario (a started service whose
child dies before each of four successive health checks and whose
restarts all succeed), the monitor sleeps 2 s before every restart
attempt; the delays are not 1 s, 2 s, 4 s and then a 60 s wait. -/
theorem crash_delays_counterexample :
    crashDelays startedService 4 = [some 2, some 2, some 2, some 2] ∧
    crashDelays startedService 4 ≠ [some 1, some 2, some 4, some 60] := by
  refine ⟨rfl, fun h => ?_⟩
  rw [(rfl : crashDelays startedService 4 =
      [some 2, some 2, some 2, some 2])] at h
  exact absurd h (by decide)

/-- C1 amended: when the monitor observes the death of a previously
healthy service (failure counter 0, pid stored), the health check
first increments `consecutive_failures` to 1, so the backoff sleep is
`2 ^ 1 = 2` seconds — for every observed failure, including the
fourth — and a successful restart resets the counter to 0 for the
next round. -/
theorem monitor_delay_after_crash (s : Service) (now : Nat)
    (o : StartOracle) (hpid : s.pid.isSome = true)
    (hcf : s.consecutive_failures = 0) :
    (monitor_tick s false now o).2 = some 2 ∧
    (o.scriptExists = true → o.pollResult = none →
      (monitor_tick s false now o).1.status = .running ∧
      (monitor_tick s false now o).1.consecutive_failures = 0) := by
  obtain ⟨p, hp⟩ := Option.isSome_iff_exists.mp hpid
  constructor
  · simp [monitor_tick, check_service_health, hp, hcf]
  · intro hs hpoll
    simp [monitor_tick, check_service_health, hp, hcf, start_service,
      hs, hpoll]

/-- Witness for `monitor_delay_after_crash` on the started service. -/
theorem monitor_delay_after_crash_witness :
    (startedService.pid.isSome = true ∧
      startedService.consecutive_failures = 0) ∧
    (monitor_tick startedService false 1 (crashOracle 101)).2 = some 2 :=
  ⟨⟨rfl, rfl⟩,
    (monitor_delay_after_crash startedService 1 (crashOracle 101)
      rfl rfl).1⟩

/-- Both exits of `stop_service` report success with status "stopped". -/
theorem stop_service_always_stops (s : Service) (pa : Bool) :
    (stop_service s pa).2 = true ∧ (stop_service s pa).1.status = .stopped := by
  unfold stop_service
  split <;> exact ⟨rfl, rfl⟩

/-- C5: stopping a service with no live process (no stored handle, or
a handle whose process has already exited) succeeds with status
"stopped", and stopping it again succeeds with status "stopped" and
leaves the record unchanged: a no-op, not an error. -/
theorem stop_idempotent_on_dead (s : Service) (pa1 pa2 : Bool)
    (h1 : s.process.isSome = true → pa1 = false)
    (h2 : s.process.isSome = true → pa2 = false) :
    (stop_service s pa1).2 = true ∧
    (stop_service s pa1).1.status = .stopped ∧
    (stop_service (stop_service s pa1).1 pa2).2 = true ∧
    (stop_service (stop_service s pa1).1 pa2).1.status = .stopped ∧
    (stop_service (stop_service s pa1).1 pa2).1 = (stop_service s pa1).1 := by
  obtain ⟨pr, pid, st, rc, cf, lr, lhc, sc, wd⟩ := s
  cases pr with
  | none => simp [stop_service]
  | some q =>
    have hpa1 : pa1 = false := h1 rfl
    have hpa2 : pa2 = false := h2 rfl
    subst hpa1
    subst hpa2
    simp [stop_service]

/-- Witness for `stop_idempotent_on_dead`: the stale stopped record
whose child already exited. -/
theorem stop_idempotent_on_dead_witness :
    (stop_service startedService false).2 = true ∧
    (stop_service startedService false).1.status = .stopped ∧
    (stop_service (stop_service startedService false).1 false).2 = true ∧
    (stop_service (stop_service startedService false).1 false).1.status
      = .stopped ∧
    (stop_service (stop_service startedService false).1 false).1 =
      (stop_service startedService false).1 :=
  stop_idempotent_on_dead startedService false false
    (fun _ => rfl) (fun _ => rfl)

/-- Oracle for a start whose child exits with code 0 inside the 5 s
grace window. -/
def exitZeroOracle : StartOracle :=
  { pidAlive := false
    scriptExists := true
    pollResult := some 0
    newPid := 101
    now := 0 }

/-- Start of a fresh service whose child exits with code 0 before the
grace window elapses. -/
def exitZeroStart : Service :=
  (start_service (initService "main.py" "DBSBM/bot") exitZeroOracle).1

/-- C6 counterexample: when the child exits with code 0 before the
grace window elapses, `start_service` sets status "error" — not
"stopped" as the claim requires (there is also no intermediate
"starting" status in the code). -/
theorem start_exit_zero_counterexample :
    exitZeroOracle.pollResult = some 0 ∧
    exitZeroStart.status = .error ∧
    exitZeroStart.status ≠ .stopped := by
  refine ⟨rfl, rfl, ?_⟩
  intro h
  rw [(rfl : exitZeroStart.status = .error)] at h
  exact absurd h (by decide)

/-- C6 amended: starting a service with no stored pid and an existing
script sets status directly to "running" when the child survives the
grace window (there is no intermediate "starting" state), and sets
status "error" — not "stopped", not "died" — with
`consecutive_failures` incremented when the child exits before the
grace window, whatever its exit code (including 0). -/
theorem start_grace_window (s : Service) (o : StartOracle)
    (hpid : s.pid = none) (hscript : o.scriptExists = true) :
    (o.pollResult = none →
      (start_service s o).2 = true ∧
      (start_service s o).1.status = .running) ∧
    (∀ c : Int, o.pollResult = some c →
      (start_service s o).2 = false ∧
      (start_service s o).1.status = .error ∧
      (start_service s o).1.consecutive_failures
        = s.consecutive_failures + 1) := by
  constructor
  · intro hpoll
    simp [start_service, hpid, hscript, hpoll]
  · intro c hpoll
    simp [start_service, hpid, hscript, hpoll]

/-- Witness for `start_grace_window` on the exit-code-0 scenario. -/
theorem start_grace_window_witness :
    ((initService "main.py" "DBSBM/bot").pid = none ∧
      exitZeroOracle.scriptExists = true) ∧
    (start_service (initService "main.py" "DBSBM/bot") exitZeroOracle).2
      = false ∧
    exitZeroStart.status = .error ∧
    exitZeroStart.consecutive_failures =
      (initService "main.py" "DBSBM/bot").consecutive_failures + 1 :=
  ⟨⟨rfl, rfl⟩,
    (start_grace_window (initService "main.py" "DBSBM/bot") exitZeroOracle
      rfl rfl).2 0 rfl⟩

/-- C8: starting a service with no stored pid and handle whose script
path does not exist fails: status "error", `consecutive_failures`
incremented by one, no process spawned (handle and pid stay null,
`restart_count` and `last_restart` untouched). -/
theorem start_missing_script (s : Service) (o : StartOracle)
    (hpid : s.pid = none) (hproc : s.process = none)
    (hscript : o.scriptExists = false) :
    (start_service s o).2 = false ∧
    (start_service s o).1.status = .error ∧
    (start_service s o).1.consecutive_failures
      = s.consecutive_failures + 1 ∧
    (start_service s o).1.process = none ∧
    (start_service s o).1.pid = none ∧
    (start_service s o).1.restart_count = s.restart_count ∧
    (start_service s o).1.last_restart = s.last_restart := by
  simp [start_service, hpid, hproc, hscript]

/-- Witness for `start_missing_script` on a fresh service. -/
theorem start_missing_script_witness :
    ((initService "main.py" "DBSBM/bot").pid = none ∧
      (initService "main.py" "DBSBM/bot").process = none) ∧
    (start_service (initService "main.py" "DBSBM/bot")
        { pidAlive := false, scriptExists := false, pollResult := none,
          newPid := 0, now := 0 }).2 = false ∧
    (start_service (initService "main.py" "DBSBM/bot")
        { pidAlive := false, scriptExists := false, pollResult := none,
          newPid := 0, now := 0 }).1.status = .error :=
  ⟨⟨rfl, rfl⟩,
    (start_missing_script (initService "main.py" "DBSBM/bot")
      { pidAlive := false, scriptExists := false, pollResult := none,
        newPid := 0, now := 0 } rfl rfl rfl).1,
    (start_missing_script (initService "main.py" "DBSBM/bot")
      { pidAlive := false, scriptExists := false, pollResult := none,
        newPid := 0, now := 0 } rfl rfl rfl).2.1⟩

/-- C9 counterexample: a health check on a service with no handle is
not field-preserving — it updates `last_health_check` before testing
the pid, so the record changes. -/
theorem health_check_no_handle_counterexample :
    (initService "main.py" "DBSBM/bot").process = none ∧
    (check_service_health (initService "main.py" "DBSBM/bot") false 7).1.last_health_check
      = some 7 ∧
    (check_service_health (initService "main.py" "DBSBM/bot") false 7).1 ≠
      initService "main.py" "DBSBM/bot" := by
  refine ⟨rfl, rfl, fun h => ?_⟩
  have h2 := congrArg Service.last_health_check h
  rw [(rfl : (check_service_health (initService "main.py" "DBSBM/bot")
      false 7).1.last_health_check = some 7)] at h2
  exact absurd h2 (by decide)

/-- C9 amended: with no stored pid the health check only records
`last_health_check := now` and reports unhealthy (every other field
unchanged); with a stored pid found not running it sets status "died",
nulls pid and handle, increments `consecutive_failures` by one, and
leaves the launch fields, `restart_count` and `last_restart`
unchanged (while also recording `last_health_check`). -/
theorem health_check_cases (s : Service) (pa : Bool) (t : Nat) :
    (s.pid = none →
      (check_service_health s pa t).1
        = { s with last_health_check := some t } ∧
      (check_service_health s pa t).2 = false) ∧
    (s.pid.isSome = true → pa = false →
      (check_service_health s pa t).1.status = .died ∧
      (check_service_health s pa t).1.process = none ∧
      (check_service_health s pa t).1.pid = none ∧
      (check_service_health s pa t).1.consecutive_failures
        = s.consecutive_failures + 1 ∧
      (check_service_health s pa t).1.script = s.script ∧
      (check_service_health s pa t).1.working_dir = s.working_dir ∧
      (check_service_health s pa t).1.restart_count = s.restart_count ∧
      (check_service_health s pa t).1.last_restart = s.last_restart ∧
      (check_service_health s pa t).1.last_health_check = some t ∧
      (check_service_health s pa t).2 = false) := by
  constructor
  · intro hpid
    simp [check_service_health, hpid]
  · intro hpid hpa
    obtain ⟨p, hp⟩ := Option.isSome_iff_exists.mp hpid
    simp [check_service_health, hp, hpa]

/-- Witness for `health_check_cases`: the no-pid branch on a fresh
service. -/
theorem health_check_cases_witness :
    (initService "main.py" "DBSBM/bot").pid = none ∧
    (check_service_health (initService "main.py" "DBSBM/bot") false 7).1
      = { initService "main.py" "DBSBM/bot" with last_health_check := some 7 } ∧
    (check_service_health (initService "main.py" "DBSBM/bot") false 7).2
      = false :=
  ⟨rfl,
    (health_check_cases (initService "main.py" "DBSBM/bot") false 7).1 rfl⟩

/-- A check against a stored date of the same month and year never
fires and leaves the stored date unchanged. -/
theorem check_same_month_no_fire (today l : Date)
    (hm : l.month = today.month) (hy : l.year = today.year) :
    check_monthly_restart today (some l) = (some l, false) := by
  simp [check_monthly_restart, hm, hy]

/-- The stored date after a check: today when it fired, unchanged
otherwise. -/
theorem check_fire_sets (today : Date) (last : Option Date) :
    (check_monthly_restart today last).1 =
      (if (check_monthly_restart today last).2 then some today else last) := by
  unfold check_monthly_restart
  split <;> rfl

/-- With a stored date of month `m`, year `y`, a run of checks on days
all in month `m` of year `y` fires nothing and keeps the stored date. -/
theorem runChecks_same_month_zero (m y : Nat) (l : Date)
    (hm : l.month = m) (hy : l.year = y) (ds : List Date)
    (h : ∀ d ∈ ds, d.month = m ∧ d.year = y) :
    runChecks (some l) ds = (some l, 0) := by
  induction ds with
  | nil => rfl
  | cons d ds ih =>
    have hd := h d (List.mem_cons_self d ds)
    have hstep := check_same_month_no_fire d l (hm.trans hd.1.symm)
      (hy.trans hd.2.symm)
    have ih2 := ih (fun e he => h e (List.mem_cons_of_mem d he))
    simp [runChecks, hstep, ih2]

/-- Over days all in one month, at most one check fires, whatever the
initial stored date. -/
theorem runChecks_le_one (m y : Nat) (ds : List Date) :
    ∀ last : Option Date, (∀ d ∈ ds, d.month = m ∧ d.year = y) →
      (runChecks last ds).2 ≤ 1 := by
  induction ds with
  | nil =>
    intro last _
    simp [runChecks]
  | cons d ds ih =>
    intro last h
    have hd := h d (List.mem_cons_self d ds)
    have hrest := fun e he => h e (List.mem_cons_of_mem d he)
    by_cases hf : (check_monthly_restart d last).2 = true
    · have h1 : (check_monthly_restart d last).1 = some d := by
        rw [check_fire_sets, hf]
        rfl
      have hzero := runChecks_same_month_zero m y d hd.1 hd.2 ds hrest
      simp [runChecks, hf, h1, hzero]
    · have hf2 : (check_monthly_restart d last).2 = false :=
        Bool.not_eq_true _ ▸ eq_false_of_ne_true hf
      have h1 : (check_monthly_restart d last).1 = last := by
        rw [check_fire_sets, hf2]
        rfl
      have := ih (check_monthly_restart d last).1 hrest
      simp [runChecks, hf2]
      simpa [h1] using this

/-- C3: within one run and one calendar month, at most one monthly
restart cycle is triggered over any sequence of checks, and once the
stored `last_monthly_restart` refers to the current month and year no
check of that month fires at all. -/
theorem monthly_restart_at_most_once (m y : Nat) (last : Option Date)
    (ds : List Date) (h : ∀ d ∈ ds, d.month = m ∧ d.year = y) :
    (runChecks last ds).2 ≤ 1 ∧
    (refersToMonth m y last = true → (runChecks last ds).2 = 0) := by
  constructor
  · exact runChecks_le_one m y ds last h
  · intro hrl
    match last, hrl with
    | some l, hrl =>
      have hml : l.month = m ∧ l.year = y := by
        have := hrl
        simp [refersToMonth] at this
        exact this
      rw [runChecks_same_month_zero m y l hml.1 hml.2 ds h]

/-- Witness for `monthly_restart_at_most_once`: three checks on the
first Monday of October 2026 (the 5th; the month starts on a
Thursday, Python weekday 3), starting from a stored restart earlier
that month. -/
theorem monthly_restart_at_most_once_witness :
    ((∀ d ∈ [Date.mk 2026 10 5 3, Date.mk 2026 10 5 3, Date.mk 2026 10 5 3],
        d.month = 10 ∧ d.year = 2026) ∧
      refersToMonth 10 2026 (some (Date.mk 2026 10 5 3)) = true) ∧
    (runChecks (some (Date.mk 2026 10 5 3))
        [Date.mk 2026 10 5 3, Date.mk 2026 10 5 3, Date.mk 2026 10 5 3]).2
      = 0 :=
  ⟨⟨by decide, rfl⟩,
    (monthly_restart_at_most_once 10 2026 (some (Date.mk 2026 10 5 3))
      [Date.mk 2026 10 5 3, Date.mk 2026 10 5 3, Date.mk 2026 10 5 3]
      (by decide)).2 rfl⟩

/-- C10: when the scheduler fires, the supervisor records
`last_monthly_restart = today` before starting the restart cycle, so
the stored date after the tick is `today` for every possible cycle
behavior (including cycles that fail or stop partway), and no check
on a later day of the same calendar month can fire again. -/
theorem monthly_mark_before_cycle (st : SupState) (today : Date)
    (cycle cycle2 : List (String × Service) → List (String × Service))
    (hfired : (check_monthly_restart today st.last_monthly_restart).2 = true) :
    (monthly_tick today st cycle).last_monthly_restart = some today ∧
    (monthly_tick today st cycle2).last_monthly_restart = some today ∧
    ∀ d2 : Date, d2.month = today.month → d2.year = today.year →
      (check_monthly_restart d2 (some today)).2 = false := by
  have h1 : (check_monthly_restart today st.last_monthly_restart).1
      = some today := by
    rw [check_fire_sets, hfired]
    rfl
  refine ⟨?_, ?_, ?_⟩
  · simp [monthly_tick, hfired, h1]
  · simp [monthly_tick, hfired, h1]
  · intro d2 hm hy
    rw [check_same_month_no_fire d2 today hm.symm hy.symm]

/-- Witness for `monthly_mark_before_cycle`: a tick on the first
Monday of October 2026 with no prior restart, whose cycle drops every
service (an interrupted stop-all). -/
theorem monthly_mark_before_cycle_witness :
    (check_monthly_restart (Date.mk 2026 10 5 3)
        (SupState.mk [] none).last_monthly_restart).2 = true ∧
    (monthly_tick (Date.mk 2026 10 5 3) (SupState.mk [] none)
        (fun _ => [])).last_monthly_restart = some (Date.mk 2026 10 5 3) :=
  ⟨rfl,
    (monthly_mark_before_cycle (SupState.mk [] none) (Date.mk 2026 10 5 3)
      (fun _ => []) id rfl).1⟩

/-- Service records reachable during a run: the record built at
construction, closed under `start_service`, `stop_service` and
`check_service_health` with arbitrary environment answers
(`monitor_services` and the all-service operations only compose
these three). -/
inductive Reach : Service → Prop where
  | init (script wd : String) : Reach (initService script wd)
  | start (s : Service) (o : StartOracle) :
      Reach s → Reach (start_service s o).1
  | stop (s : Service) (pa : Bool) :
      Reach s → Reach (stop_service s pa).1
  | health (s : Service) (pa : Bool) (t : Nat) :
      Reach s → Reach (check_service_health s pa t).1

/-- The handle/status relation that does hold in the code: a "died"
record holds neither handle nor pid, a "running" record holds both,
and a stored pid always comes with a stored handle. -/
def handleStatusInv (s : Service) : Prop :=
  (s.status = .died → s.process = none ∧ s.pid = none) ∧
  (s.status = .running → s.process.isSome = true ∧ s.pid.isSome = true) ∧
  (s.pid.isSome = true → s.process.isSome = true)

/-- `start_service` preserves the handle/status relation. -/
theorem start_preserves_inv (s : Service) (o : StartOracle)
    (ih : handleStatusInv s) : handleStatusInv (start_service s o).1 := by
  obtain ⟨hd, hr, hpp⟩ := ih
  unfold start_service
  split
  · rename_i hc
    have hpid : s.pid.isSome = true := by
      cases hps : s.pid.isSome
      · rw [hps] at hc
        simp at hc
      · rfl
    exact ⟨fun h => by simp at h, fun _ => ⟨hpp hpid, hpid⟩, fun _ => hpp hpid⟩
  · split
    · exact ⟨fun h => by simp at h, fun h => by simp at h, fun h => hpp h⟩
    · split
      · exact ⟨fun h => by simp at h, fun _ => ⟨rfl, rfl⟩, fun _ => rfl⟩
      · exact ⟨fun h => by simp at h, fun h => by simp at h, fun h => hpp h⟩

/-- `stop_service` preserves the handle/status relation. -/
theorem stop_preserves_inv (s : Service) (pa : Bool)
    (_ih : handleStatusInv s) : handleStatusInv (stop_service s pa).1 := by
  unfold stop_service
  split
  · exact ⟨fun h => by simp at h, fun h => by simp at h, fun h => by simp at h⟩
  · exact ⟨fun h => by simp at h, fun h => by simp at h, fun h => by simp at h⟩

/-- `check_service_health` preserves the handle/status relation. -/
theorem health_preserves_inv (s : Service) (pa : Bool) (t : Nat)
    (ih : handleStatusInv s) :
    handleStatusInv (check_service_health s pa t).1 := by
  obtain ⟨hd, hr, hpp⟩ := ih
  simp only [check_service_health]
  split
  · rename_i hpid
    refine ⟨fun h => ?_, fun h => ?_, fun h => hpp h⟩
    · exact ⟨(hd h).1, (hd h).2⟩
    · exact ⟨(hr h).1, (hr h).2⟩
  · rename_i hpid
    split
    · exact ⟨fun _ => ⟨rfl, rfl⟩, fun h => by simp at h, fun h => by simp at h⟩
    · refine ⟨fun h => by simp at h, fun _ => ?_, fun h => hpp h⟩
      have hps : s.pid.isSome = true := by
        cases hq : s.pid
        · rw [hq] at hpid
          simp at hpid
        · rfl
      exact ⟨hpp hps, hps⟩

/-- C4 amended: on every reachable service record, status "died"
implies no handle and no pid, status "running" implies a stored
handle and pid, and a stored pid implies a stored handle — but the
converse of the claim fails: "stopped" and "error" records can retain
a stale handle. -/
theorem reachable_handle_inv (s : Service) (h : Reach s) :
    handleStatusInv s := by
  induction h with
  | init script wd =>
    exact ⟨fun h => by simp [initService] at h,
      fun h => by simp [initService] at h,
      fun h => by simp [initService] at h⟩
  | start s o _ ih => exact start_preserves_inv s o ih
  | stop s pa _ ih => exact stop_preserves_inv s pa ih
  | health s pa t _ ih => exact health_preserves_inv s pa t ih

/-- Witness for `reachable_handle_inv`: the record right after a
successful start is reachable and satisfies the relation. -/
theorem reachable_handle_inv_witness :
    Reach startedService ∧ handleStatusInv startedService :=
  ⟨Reach.start (initService "main.py" "DBSBM/bot") (crashOracle 100)
      (Reach.init "main.py" "DBSBM/bot"),
    reachable_handle_inv startedService
      (Reach.start (initService "main.py" "DBSBM/bot") (crashOracle 100)
        (Reach.init "main.py" "DBSBM/bot"))⟩

/-- The record produced by stopping a started service whose child has
already exited on its own: `stop_service` takes its not-running
branch, which nulls the pid but leaves the stored handle in place. -/
def staleStopped : Service := (stop_service startedService false).1

/-- C4 counterexample: a reachable record with status "stopped" that
still holds a process handle — the claimed iff
(handle present exactly on starting/running/stopping) is false. -/
theorem stopped_with_handle_counterexample :
    Reach staleStopped ∧
    staleStopped.status = .stopped ∧
    staleStopped.process = some 100 ∧
    staleStopped.process ≠ none := by
  refine ⟨?_, rfl, rfl, ?_⟩
  · exact Reach.stop startedService false
      (Reach.start (initService "main.py" "DBSBM/bot") (crashOracle 100)
        (Reach.init "main.py" "DBSBM/bot"))
  · intro h
    rw [(rfl : staleStopped.process = some 100)] at h
    exact absurd h (by decide)

/-- Per-service operations performed by the supervisor during a run,
after the boot-time `start_all_services`: one monitor iteration
(health check, then backoff restart on "died"), the per-service part
of `restart_all_services` (stop, then start), and the per-service
part of `stop_all_services`. -/
inductive SvcOp where
  | tick (pidAlive : Bool) (now : Nat) (o : StartOracle)
  | restartCycle (procAlive : Bool) (o : StartOracle)
  | stopOnly (procAlive : Bool)

/-- `start_service` instrumented with a ghost counter of start calls
that returned success. -/
def countingStart (sn : Service × Nat) (o : StartOracle) : Service × Nat :=
  let r := start_service sn.1 o
  (r.1, if r.2 then sn.2 + 1 else sn.2)

/-- Apply one supervisor operation to a service record, threading the
ghost success counter. -/
def applyOp (sn : Service × Nat) : SvcOp → Service × Nat
  | .tick pa now o =>
    let r := check_service_health sn.1 pa now
    if r.2 then (r.1, sn.2)
    else if r.1.status = .died then
      if r.1.consecutive_failures ≤ 3 then countingStart (r.1, sn.2) o
      else (r.1, sn.2)
    else (r.1, sn.2)
  | .restartCycle pa o => countingStart ((stop_service sn.1 pa).1, sn.2) o
  | .stopOnly pa => ((stop_service sn.1 pa).1, sn.2)

/-- Run a list of supervisor operations. -/
def runOps (sn : Service × Nat) (ops : List SvcOp) : Service × Nat :=
  ops.foldl applyOp sn

/-- A whole run for one service: the boot-time start from the
freshly constructed record, followed by supervisor operations. -/
def runFromBoot (script wd : String) (o0 : StartOracle)
    (ops : List SvcOp) : Service × Nat :=
  runOps (countingStart (initService script wd, 0) o0) ops

/-- On a record with no stored pid, `start_service` bumps
`restart_count` exactly when it returns success. -/
theorem start_rc_counts (s : Service) (o : StartOracle)
    (hpid : s.pid = none) :
    (start_service s o).1.restart_count
      = s.restart_count + (if (start_service s o).2 then 1 else 0) := by
  simp only [start_service, hpid, Option.isSome_none, Bool.false_and,
    Bool.false_eq_true, if_false]
  split
  · simp
  · split <;> simp

/-- The ghost counter stays equal to `restart_count` across a start
on a record with no stored pid. -/
theorem countingStart_preserves (s : Service) (n : Nat) (o : StartOracle)
    (hpid : s.pid = none) (h : s.restart_count = n) :
    (countingStart (s, n) o).1.restart_count = (countingStart (s, n) o).2 := by
  simp only [countingStart]
  rw [start_rc_counts s o hpid, h]
  split <;> simp

/-- The health check never changes `restart_count`. -/
theorem health_rc (s : Service) (pa : Bool) (t : Nat) :
    (check_service_health s pa t).1.restart_count = s.restart_count := by
  simp only [check_service_health]
  split
  · rfl
  · split <;> rfl

/-- A health-check result with status "died" holds no pid (either the
record held none and kept its status, or the dead branch nulled it). -/
theorem health_died_pid (s : Service) (pa : Bool) (t : Nat)
    (h : (check_service_health s pa t).1.status = .died) :
    (check_service_health s pa t).1.pid = none := by
  revert h
  simp only [check_service_health]
  split
  · rename_i hpid
    intro _
    exact hpid
  · split
    · intro _
      rfl
    · intro h
      exact absurd h (by simp)

/-- `stop_service` nulls the pid and keeps `restart_count`. -/
theorem stop_pid_rc (s : Service) (pa : Bool) :
    (stop_service s pa).1.pid = none ∧
    (stop_service s pa).1.restart_count = s.restart_count := by
  unfold stop_service
  split <;> exact ⟨rfl, rfl⟩

/-- Every supervisor operation keeps the ghost count of successful
starts equal to the stored `restart_count`. -/
theorem applyOp_preserves_count (sn : Service × Nat) (op : SvcOp)
    (h : sn.1.restart_count = sn.2) :
    (applyOp sn op).1.restart_count = (applyOp sn op).2 := by
  match op with
  | .tick pa now o =>
    simp only [applyOp]
    split
    · simpa [health_rc] using h
    · split
      · rename_i hdied
        split
        · exact countingStart_preserves _ sn.2 o
            (health_died_pid sn.1 pa now hdied)
            ((health_rc sn.1 pa now).trans h)
        · simpa [health_rc] using h
      · simpa [health_rc] using h
  | .restartCycle pa o =>
    simp only [applyOp]
    exact countingStart_preserves _ sn.2 o (stop_pid_rc sn.1 pa).1
      ((stop_pid_rc sn.1 pa).2.trans h)
  | .stopOnly pa =>
    simpa [applyOp, (stop_pid_rc sn.1 pa).2] using h

/-- Running any operation list keeps the count equal. -/
theorem runOps_preserves (ops : List SvcOp) :
    ∀ sn : Service × Nat, sn.1.restart_count = sn.2 →
      (runOps sn ops).1.restart_count = (runOps sn ops).2 := by
  induction ops with
  | nil =>
    intro sn h
    exact h
  | cons op ops ih =>
    intro sn h
    exact ih (applyOp sn op) (applyOp_preserves_count sn op h)

/-- C7: after any run — the boot-time start followed by any sequence
of monitor ticks, restart cycles and stops — the `restart_count`
written into the persisted status record equals the number of
`start_service` calls that returned success since the run began. -/
theorem restart_count_equals_successes (script wd : String)
    (o0 : StartOracle) (ops : List SvcOp) :
    (update_status_entry (runFromBoot script wd o0 ops).1).restart_count
      = (runFromBoot script wd o0 ops).2 := by
  unfold runFromBoot
  exact runOps_preserves ops _
    (countingStart_preserves (initService script wd) 0 o0 rfl rfl)

/-- Witness for `restart_count_equals_successes`: a boot start, one
monitor tick that observes a crash and restarts, then a stop. -/
theorem restart_count_equals_successes_witness :
    (update_status_entry (runFromBoot "main.py" "DBSBM/bot"
        (crashOracle 100)
        [SvcOp.tick false 1 (crashOracle 101), SvcOp.stopOnly false]).1).restart_count
      = (runFromBoot "main.py" "DBSBM/bot" (crashOracle 100)
          [SvcOp.tick false 1 (crashOracle 101), SvcOp.stopOnly false]).2 :=
  restart_count_equals_successes "main.py" "DBSBM/bot" (crashOracle 100)
    [SvcOp.tick false 1 (crashOracle 101), SvcOp.stopOnly false]

end BotServer
